import Mathlib

/-!
Verification development for the Android Media Player connection coordinator
(`custom_components/android_media_player/coordinator.py` and the seek entry
point of `media_player.py`).

The coordinator is shallowly embedded as a pure state machine.  The mutable
attributes of `AndroidMediaPlayerCoordinator` become the fields of the
`Coordinator` structure; each Python method becomes a Lean function from the
coordinator state (plus the outcomes of the external transports, which the
real code obtains from the network) to a new state together with a trace of
observable events (push-channel writes, request-transport calls, cache
updates, listener notifications, timer scheduling).

`asyncio.Task` objects held in `_ws_task` / `_reconnect_task` are modelled as
`Option Bool`: `none` is the attribute being `None`, `some d` is an existing
task whose `done()` is `d`.  This is enough because the code only ever asks a
task whether it is `done()`, cancels it, or awaits it.
-/

namespace AMP

/-- JSON values, the payloads of frames, request bodies and the state cache. -/
inductive JVal where
  | jstr : String → JVal
  | jint : Int → JVal
  | jnum : Rat → JVal
  | jbool : Bool → JVal
  | jnull : JVal
  | jobj : List (String × JVal) → JVal

/-- A JSON object, also the `DeviceState` snapshot: a mapping from field name
to value kept verbatim (`self._state` in the source). -/
abbrev JObj := List (String × JVal)

/-- Python `kwargs.get(k)`: the value bound to `k`, or `None` when absent. -/
def jget (kwargs : JObj) (k : String) : JVal :=
  (kwargs.lookup k).getD .jnull

/-- Python `k in kwargs`. -/
def hasKey (kwargs : JObj) (k : String) : Bool :=
  (kwargs.lookup k).isSome

/-! Constants from `const.py`.  The reconnect bounds are passed explicitly
(as `mn` / `mx`) to the functions that read them, so the theorems can speak
about a general configured minimum and cap; the concrete runs instantiate
them with these values. -/

def RECONNECT_INTERVAL_MIN : Nat := 5
def RECONNECT_INTERVAL_MAX : Nat := 300
def CONNECTION_TIMEOUT : Nat := 10
def WS_HEARTBEAT : Nat := 30

/-- The mutable attributes of `AndroidMediaPlayerCoordinator`. -/
structure Coordinator where
  /-- `self._ws is not None`: a push-transport handle is installed. -/
  ws : Bool
  /-- `self._ws_task`: the read-loop task (`none` = `None`, `some d` = a task
  with `done() = d`). -/
  wsTask : Option Bool
  /-- `self._reconnect_task`: the reconnect timer task, same encoding. -/
  reconnectTask : Option Bool
  /-- `self._connected`. -/
  connected : Bool
  /-- `self._state`: the cached device-state snapshot. -/
  state : JObj
  /-- `self._listeners`: registered callbacks, by opaque identity. -/
  listeners : List Nat
  /-- `self._should_reconnect`. -/
  shouldReconnect : Bool
  /-- `self._reconnect_count`. -/
  reconnectCount : Nat
  /-- `self._current_reconnect_interval`. -/
  currentReconnectInterval : Nat

/-- The coordinator as built by `__init__`. -/
def initCoordinator : Coordinator where
  ws := false
  wsTask := none
  reconnectTask := none
  connected := false
  state := []
  listeners := []
  shouldReconnect := true
  reconnectCount := 0
  currentReconnectInterval := RECONNECT_INTERVAL_MIN

/-- Observable effects of the coordinator on the outside world. -/
inductive Event where
  /-- One attempt to open the push transport (`websockets.connect`). -/
  | connectAttempt : Event
  /-- A reconnect timer created for the given delay (`create_task (_reconnect delay)`). -/
  | scheduleTimer : Nat → Event
  /-- A write of a serialized message on the push channel (`self._ws.send`). -/
  | wsSend : JObj → Event
  /-- A request-transport `POST endpoint` with the given JSON body. -/
  | restPost : String → Option JObj → Event
  /-- A request-transport `GET endpoint`. -/
  | restGet : String → Event
  /-- The cache being replaced by a snapshot (`self._state = data`). -/
  | cacheSet : JObj → Event
  /-- One listener fan-out (`self._notify_listeners`). -/
  | notify : Event

/-- Outcome of one push-channel write: it either returns or raises. -/
inductive PushOutcome where
  | ok : PushOutcome
  | exn : PushOutcome

/-- Outcome of one request-transport POST (`session.post` in
`_send_rest_command`): a response with a status and JSON body, or one of the
caught exception classes. -/
inductive RestOutcome where
  | response : Nat → JObj → RestOutcome
  | connectError : RestOutcome
  | timeoutError : RestOutcome
  | otherError : RestOutcome

/-- Outcome of one request-transport GET (`session.get` in `async_get_state`). -/
inductive GetStateOutcome where
  | response : Nat → JObj → GetStateOutcome
  | connectError : GetStateOutcome
  | timeoutError : GetStateOutcome
  | otherError : GetStateOutcome

/-- Outcome of one `websockets.connect` attempt inside `asyncio.wait_for`. -/
inductive ConnectOutcome where
  | ok : ConnectOutcome
  | timeoutError : ConnectOutcome
  | refused : ConnectOutcome
  | otherError : ConnectOutcome

/-- `_schedule_reconnect` (coordinator.py lines 251-268).  Guarded by
`if self._reconnect_task is None or self._reconnect_task.done():`; inside the
guard it increments `_reconnect_count`, creates the timer task for the
current interval, and doubles `_current_reconnect_interval` capped at `mx`
(= `RECONNECT_INTERVAL_MAX`). -/
def schedule_reconnect (mx : Nat) (co : Coordinator) : Coordinator × List Event :=
  if co.reconnectTask = none ∨ co.reconnectTask = some true then
    let co1 := { co with reconnectCount := co.reconnectCount + 1 }
    let next_interval := co1.currentReconnectInterval
    let co2 := { co1 with reconnectTask := some false }
    let co3 := { co2 with
      currentReconnectInterval := min (co2.currentReconnectInterval * 2) mx }
    (co3, [Event.scheduleTimer next_interval])
  else
    (co, [])

/-- `async_get_state` (coordinator.py lines 393-428): `GET /state`; on HTTP
200 the cache is replaced by the response body, which is also returned; on a
non-200 status or any caught exception the function returns `None` and the
cache is untouched. -/
def async_get_state (co : Coordinator) (outcome : GetStateOutcome) :
    Coordinator × Option JObj × List Event :=
  match outcome with
  | .response status body =>
      if status = 200 then
        ({ co with state := body }, some body, [Event.restGet "/state"])
      else
        (co, none, [Event.restGet "/state"])
  | _ => (co, none, [Event.restGet "/state"])

/-- `_connect_websocket` (coordinator.py lines 138-188).  On success: install
the handle, set `_connected`, reset `_reconnect_count` and
`_current_reconnect_interval` to the minimum, fetch a baseline snapshot via
`async_get_state`, notify listeners once, and start the read-loop task.  On
timeout / refusal / any other error: clear `_connected` and call
`_schedule_reconnect`. -/
def connect_websocket (mn mx : Nat) (co : Coordinator) (outcome : ConnectOutcome)
    (fetch : GetStateOutcome) : Coordinator × List Event :=
  match outcome with
  | .ok =>
      let co1 := { co with ws := true, connected := true, reconnectCount := 0,
                           currentReconnectInterval := mn }
      let r := async_get_state co1 fetch
      let co2 := { r.1 with wsTask := some false }
      (co2, Event.connectAttempt :: (r.2.2 ++ [Event.notify]))
  | _ =>
      let co1 := { co with connected := false }
      let r := schedule_reconnect mx co1
      (r.1, Event.connectAttempt :: r.2)

/-- `async_connect` (coordinator.py lines 96-105): set `_should_reconnect`,
reset the backoff schedule, and attempt the websocket connection. -/
def async_connect (mn mx : Nat) (co : Coordinator) (outcome : ConnectOutcome)
    (fetch : GetStateOutcome) : Coordinator × List Event :=
  let co1 := { co with shouldReconnect := true, reconnectCount := 0,
                       currentReconnectInterval := mn }
  connect_websocket mn mx co1 outcome fetch

/-- One iteration of the `async for message in self._ws` body of
`_listen_websocket` (coordinator.py lines 195-219).  A frame is `some data`
when `json.loads` succeeds and `none` when it raises `JSONDecodeError`.  On
success the cache is replaced wholesale by `data` and one listener
notification is scheduled (after the cache write); on decode failure the
frame is logged and skipped. -/
def listen_step (co : Coordinator) (frame : Option JObj) : Coordinator × List Event :=
  match frame with
  | some data => ({ co with state := data }, [Event.cacheSet data, Event.notify])
  | none => (co, [])

/-- The read loop over a finite prefix of inbound frames. -/
def listen_frames (co : Coordinator) : List (Option JObj) → Coordinator × List Event
  | [] => (co, [])
  | f :: rest =>
      let r1 := listen_step co f
      let r2 := listen_frames r1.1 rest
      (r2.1, r1.2 ++ r2.2)

/-- The `finally` block of `_listen_websocket` (coordinator.py lines
239-249), which runs on every loop termination, cancellation included:
clear `_connected`, notify listeners once, and if `_should_reconnect` call
`_schedule_reconnect`. -/
def listen_finally (mx : Nat) (co : Coordinator) : Coordinator × List Event :=
  let co1 := { co with connected := false }
  if co1.shouldReconnect then
    let r := schedule_reconnect mx co1
    (r.1, Event.notify :: r.2)
  else
    (co1, [Event.notify])

/-- `async_disconnect` (coordinator.py lines 107-136): clear
`_should_reconnect`; cancel and await the reconnect task (a sleeping timer is
cancelled before its body can attempt a connect) and set the attribute to
`None`; cancel and await the read-loop task — cancelling a still-running loop
runs its `finally` block — and set the attribute to `None`; close the
websocket handle; clear `_connected`. -/
def async_disconnect (mx : Nat) (co : Coordinator) : Coordinator × List Event :=
  let co1 := { co with shouldReconnect := false }
  let co2 := { co1 with reconnectTask := none }
  let r :=
    match co2.wsTask with
    | some false =>
        let f := listen_finally mx co2
        ({ f.1 with wsTask := none }, f.2)
    | some true => ({ co2 with wsTask := none }, [])
    | none => (co2, [])
  ({ r.1 with ws := false, connected := false }, r.2)

/-- The body of `_reconnect` after its `asyncio.sleep` returns (coordinator.py
lines 270-278): if `_should_reconnect`, run `_connect_websocket`.  While the
body runs, `self._reconnect_task` is this very task and its `done()` is
`False`; the attribute is never reassigned during the body (the only
reassignment, in `_schedule_reconnect`, is guarded out), so when the body
returns the attribute still points at this task, which is now done. -/
def reconnect_fires (mn mx : Nat) (co : Coordinator) (outcome : ConnectOutcome)
    (fetch : GetStateOutcome) : Coordinator × List Event :=
  if co.shouldReconnect then
    let r := connect_websocket mn mx co outcome fetch
    ({ r.1 with reconnectTask := some true }, r.2)
  else
    ({ co with reconnectTask := some true }, [])

/-- The table of `_send_rest_command` (coordinator.py lines 311-318). -/
def endpoint_map : List (String × String) :=
  [("play", "/play"), ("pause", "/pause"), ("stop", "/stop"),
   ("volume", "/volume"), ("mute", "/mute"), ("seek", "/seek")]

/-- The per-command request body shaped by `_send_rest_command`
(coordinator.py lines 330-350); `none` is Python's `json_body = None`. -/
def rest_body (command : String) (kwargs : JObj) : Option JObj :=
  if command = "play" ∧ hasKey kwargs "url" then
    some [("url", jget kwargs "url"), ("title", jget kwargs "title"),
          ("artist", jget kwargs "artist")]
  else if command = "volume" ∧ hasKey kwargs "level" then
    some [("level", jget kwargs "level")]
  else if command = "mute" then
    some [("muted", jget kwargs "muted")]
  else if command = "seek" ∧ hasKey kwargs "position" then
    some [("position", jget kwargs "position")]
  else
    none

/-- `_send_rest_command` (coordinator.py lines 309-391).  Unknown command
names fail before any network call.  Otherwise one POST is issued; on HTTP
200 the `success` flag of the body is returned (defaulting to true when
absent, per `data.get("success", True)`) and a `state` field in the body —
an object, per the protocol — replaces the cache and triggers one
notification; any other status or any caught exception returns failure. -/
def send_rest_command (co : Coordinator) (command : String) (kwargs : JObj)
    (outcome : RestOutcome) : Coordinator × Bool × List Event :=
  match endpoint_map.lookup command with
  | none => (co, false, [])
  | some endpoint =>
      let json_body := rest_body command kwargs
      let ev := Event.restPost endpoint json_body
      match outcome with
      | .response status data =>
          if status = 200 then
            let success := match data.lookup "success" with
                           | some (.jbool b) => b
                           | _ => true
            match data.lookup "state" with
            | some (.jobj s) => ({ co with state := s }, success, [ev, Event.notify])
            | _ => (co, success, [ev])
          else
            (co, false, [ev])
      | _ => (co, false, [ev])

/-- `async_send_command` (coordinator.py lines 280-307).  If not connected or
the handle is `None`, go straight to the REST fallback.  Otherwise serialize
`{"command": command, **kwargs}` and write it on the push channel; a write
that raises falls back to the REST path with the same arguments, without
touching the handle. -/
def async_send_command (co : Coordinator) (command : String) (kwargs : JObj)
    (push : PushOutcome) (rest : RestOutcome) : Coordinator × Bool × List Event :=
  if co.connected = false ∨ co.ws = false then
    send_rest_command co command kwargs rest
  else
    let message := ("command", JVal.jstr command) :: kwargs
    match push with
    | .ok => (co, true, [Event.wsSend message])
    | .exn =>
        let r := send_rest_command co command kwargs rest
        (r.1, r.2.1, Event.wsSend message :: r.2.2)

/-! Trace semantics.  An `Action` is one unit of activity that can run on the
event loop: an external lifecycle or command call, a pending reconnect timer
firing, or the read-loop task consuming its frames and terminating.  Tasks
only run when they exist and are not yet done, matching asyncio. -/

/-- One schedulable unit of activity. -/
inductive Action where
  | connect : ConnectOutcome → GetStateOutcome → Action
  | disconnect : Action
  /-- The pending reconnect timer's sleep elapses and its body runs. -/
  | timerFires : ConnectOutcome → GetStateOutcome → Action
  /-- The read-loop task consumes the given frames, then its stream ends
  (peer close or transport error) and the `finally` block runs. -/
  | wsLoopRuns : List (Option JObj) → Action
  | send : String → JObj → PushOutcome → RestOutcome → Action
  | getState : GetStateOutcome → Action

/-- Run one action against the coordinator state. -/
def step (mn mx : Nat) (co : Coordinator) : Action → Coordinator × List Event
  | .connect outcome fetch => async_connect mn mx co outcome fetch
  | .disconnect => async_disconnect mx co
  | .timerFires outcome fetch =>
      match co.reconnectTask with
      | some false => reconnect_fires mn mx co outcome fetch
      | _ => (co, [])
  | .wsLoopRuns frames =>
      match co.wsTask with
      | some false =>
          let r1 := listen_frames co frames
          let r2 := listen_finally mx r1.1
          ({ r2.1 with wsTask := some true }, r1.2 ++ r2.2)
      | _ => (co, [])
  | .send command kwargs push rest =>
      let r := async_send_command co command kwargs push rest
      (r.1, r.2.2)
  | .getState outcome =>
      let r := async_get_state co outcome
      (r.1, r.2.2)

/-- Run a sequence of actions, collecting the event trace. -/
def run (mn mx : Nat) (co : Coordinator) : List Action → Coordinator × List Event
  | [] => (co, [])
  | a :: rest =>
      let r1 := step mn mx co a
      let r2 := run mn mx r1.1 rest
      (r2.1, r1.2 ++ r2.2)

/-- Actions that are a `connect()` call. -/
def isConnectCall : Action → Bool
  | .connect _ _ => true
  | _ => false

/-- Events that are reconnection activity: a connect attempt on the push
transport or the creation of a reconnect timer. -/
def isReconnectActivity : Event → Bool
  | .connectAttempt => true
  | .scheduleTimer _ => true
  | _ => false

/-- Events that are request-transport POST calls. -/
def isRestPost : Event → Bool
  | .restPost _ _ => true
  | _ => false

/-- A coordinator with no background activity: reconnection disabled, no
reconnect task, no read-loop task, transport closed, status disconnected. -/
def stoppedB (co : Coordinator) : Bool :=
  co.shouldReconnect = false ∧ co.reconnectTask = none ∧ co.wsTask = none ∧
  co.ws = false ∧ co.connected = false

/-! The listener registry, modelled at CPython-list granularity for the
re-entrancy question.  `_notify_listeners` runs `for listener in
self._listeners: listener()` directly over the live list; a CPython list
iterator keeps an index, yields `lst[i]` while `i < len(lst)` and increments
`i` by one per iteration, reflecting any mutation the callback performs on
the same list object.  `remove_listener` (the handle returned by
`add_listener`) runs `self._listeners.remove(callback)`, deleting the first
occurrence.  A listener is identified by an opaque id; its behaviour when
invoked is one of the registry-mutating effects the claim quantifies over. -/

/-- What a callback does to the registry when invoked during fan-out. -/
inductive LEffect where
  /-- The callback does not touch the registry. -/
  | inert : LEffect
  /-- The callback invokes its own unregistration handle
  (`self._listeners.remove(callback)`). -/
  | removeSelf : LEffect
  /-- The callback invokes the unregistration handle of the listener with the
  given id. -/
  | removeId : Nat → LEffect
deriving DecidableEq, Repr

/-- A registered listener: an identity plus its behaviour when called. -/
structure PyListener where
  id : Nat
  eff : LEffect
deriving DecidableEq, Repr

/-- Python `list.remove(x)`: delete the first occurrence. -/
def pyRemove : List PyListener → PyListener → List PyListener
  | [], _ => []
  | x :: xs, y => if x = y then xs else x :: pyRemove xs y

/-- Python `list.remove` keyed on the listener id (the handle closes over the
callback object; ids are unique in our runs). -/
def pyRemoveId : List PyListener → Nat → List PyListener
  | [], _ => []
  | x :: xs, i => if x.id = i then xs else x :: pyRemoveId xs i

/-- Apply the effect of invoking listener `l` to the live registry list. -/
def applyEffect (l : PyListener) (ls : List PyListener) : List PyListener :=
  match l.eff with
  | .inert => ls
  | .removeSelf => pyRemove ls l
  | .removeId i => pyRemoveId ls i

/-- The CPython list-iterator loop of `_notify_listeners`: read `lst[i]`,
advance the index, run the callback (which may mutate the list), repeat while
the index is in range.  No effect grows the list, so the initial length
bounds the number of iterations and serves as fuel. -/
def notifyIter : Nat → List PyListener → Nat → List Nat → List PyListener × List Nat
  | 0, ls, _, called => (ls, called)
  | fuel + 1, ls, i, called =>
      match ls[i]? with
      | none => (ls, called)
      | some l => notifyIter fuel (applyEffect l ls) (i + 1) (called ++ [l.id])

/-- `_notify_listeners` (coordinator.py lines 89-94): the final registry list
and the ids called during the pass, in order. -/
def notify_listeners (ls : List PyListener) : List PyListener × List Nat :=
  notifyIter ls.length ls 0 []

/-! The seek entry point of the presentation layer
(`media_player.py`, `async_media_seek`, lines 232-244). -/

/-- Python `int()` applied to a (mathematically exact) real: truncation
toward zero, i.e. T-division of the numerator by the denominator. -/
def pyInt (q : Rat) : Int :=
  q.num.tdiv q.den

/-- `async_media_seek` (media_player.py lines 232-244): convert the position
in seconds to integer milliseconds with `int(position * 1000)` and dispatch
`async_send_command("seek", position=position_ms)`.  Returns the command name
and kwargs handed to the coordinator. -/
def async_media_seek (position : Rat) : String × JObj :=
  let position_ms := pyInt (position * 1000)
  ("seek", [("position", JVal.jint position_ms)])

/-- A coordinator in the steady connected state: push handle installed,
status connected, read-loop task running. -/
def connectedCo : Coordinator :=
  { initCoordinator with ws := true, connected := true, wsTask := some false }

/-- Expected read-loop trace, following the spec: every successfully decoded
frame contributes a wholesale cache replacement followed by exactly one
notification, in that order; malformed frames contribute nothing. -/
def expectedFrameEvents : List (Option JObj) → List Event
  | [] => []
  | some d :: rest => Event.cacheSet d :: Event.notify :: expectedFrameEvents rest
  | none :: rest => expectedFrameEvents rest

/-- The content of the last decoded frame in the list, or the given default
when no frame decodes. -/
def lastDecoded (dflt : JObj) : List (Option JObj) → JObj
  | [] => dflt
  | some d :: rest => lastDecoded d rest
  | none :: rest => lastDecoded dflt rest

end AMP

namespace AMP

/-! Theorems. -/

lemma pyInt_eq_floor (q : Rat) (h : 0 ≤ q) : pyInt q = ⌊q⌋ := by
  unfold pyInt
  rw [Int.tdiv_eq_ediv (Rat.num_nonneg.mpr h) (Int.natCast_nonneg q.den),
    Rat.floor_def]

/-- C7: at most one reconnection timer is ever pending (the coordinator holds
a single `_reconnect_task` slot and only replaces it when it is `None` or
done); calling `_schedule_reconnect` while a timer task exists and is not
done is a complete no-op: the attempt counter is not incremented, the backoff
interval is not doubled, and no timer is created. -/
theorem schedule_reconnect_noop_when_pending (mx : Nat) (co : Coordinator)
    (h : co.reconnectTask = some false) :
    schedule_reconnect mx co = (co, []) := by
  unfold schedule_reconnect
  rw [h]
  simp

/-- Witness for C7: a pending-timer coordinator is returned unchanged with no
events. -/
theorem schedule_reconnect_noop_when_pending_witness :
    schedule_reconnect 300 { initCoordinator with reconnectTask := some false }
      = ({ initCoordinator with reconnectTask := some false }, []) :=
  schedule_reconnect_noop_when_pending 300 _ rfl

/-- C1 (divergence witness): the spec says consecutive connect failures under
minimum 5 and cap 300 schedule retries after 5 s, 10 s, 20 s.  In the code
the first failure schedules the 5 s retry, but when that retry fires and its
connect attempt fails, `_schedule_reconnect` runs while the reconnect task
itself is still executing, so `done()` is false and the guard turns the call
into a no-op: no 10 s timer is created, the task then finishes, and a later
timer firing is impossible (the slot holds a done task and nothing pending),
halting reconnection after a single retry. -/
theorem reconnect_backoff_chain_halts :
    (step 5 300 initCoordinator (.connect .refused .otherError)).2
      = [Event.connectAttempt, Event.scheduleTimer 5] ∧
    (step 5 300 (step 5 300 initCoordinator (.connect .refused .otherError)).1
        (.timerFires .refused .otherError)).2 = [Event.connectAttempt] ∧
    (step 5 300 (step 5 300 initCoordinator (.connect .refused .otherError)).1
        (.timerFires .refused .otherError)).1.reconnectTask = some true ∧
    step 5 300 (step 5 300 (step 5 300 initCoordinator
          (.connect .refused .otherError)).1
        (.timerFires .refused .otherError)).1 (.timerFires .refused .otherError)
      = ((step 5 300 (step 5 300 initCoordinator
          (.connect .refused .otherError)).1
        (.timerFires .refused .otherError)).1, []) :=
  ⟨rfl, rfl, rfl, rfl⟩

/-- C3 (counterexample): with the coordinator connected and the push handle
non-null, `send("bogus")` does not fail immediately with zero network calls —
the unknown command is serialized and written to the push channel (one
network call) and the call returns success, because `async_send_command`
consults the endpoint table only on the REST fallback path. -/
theorem unknown_command_sent_on_push_when_connected :
    async_send_command connectedCo "bogus" [] .ok .otherError
      = (connectedCo, true, [Event.wsSend [("command", JVal.jstr "bogus")]]) :=
  rfl

/-- C3 (amended): when the coordinator is not connected or the push handle is
null — i.e. whenever the command reaches the request-transport path directly
— sending a command name absent from the endpoint table returns failure
immediately and issues zero network calls. -/
theorem unknown_command_fails_without_network (co : Coordinator)
    (command : String) (kwargs : JObj) (push : PushOutcome) (rest : RestOutcome)
    (hcmd : endpoint_map.lookup command = none)
    (hco : co.connected = false ∨ co.ws = false) :
    async_send_command co command kwargs push rest = (co, false, []) := by
  unfold async_send_command send_rest_command
  rw [if_pos hco, hcmd]

/-- Witness for C3's amended statement: a disconnected coordinator rejects
"bogus" with no events. -/
theorem unknown_command_fails_without_network_witness :
    async_send_command initCoordinator "bogus" [] .ok .otherError
      = (initCoordinator, false, []) :=
  unknown_command_fails_without_network _ _ _ _ _ rfl (Or.inl rfl)

/-- C4: a frame that fails to decode is skipped: that iteration returns the
coordinator — cache and listener set included — unchanged and produces no
events, and the loop goes on to process the remaining frames exactly as it
would have without the malformed frame. -/
theorem malformed_frame_skipped (co : Coordinator) (rest : List (Option JObj)) :
    listen_step co none = (co, []) ∧
    listen_frames co (none :: rest) = listen_frames co rest :=
  ⟨rfl, rfl⟩

/-- C5 (divergence witness): the spec requires registration and
unregistration to be safe from inside a notification callback (no
iteration-invalidation).  The code iterates directly over the live
`self._listeners` list, so a callback that invokes its own unregistration
handle shifts the remaining listeners one slot left and the iterator skips
the next one: with listeners [0, 1] where 0 unsubscribes itself during the
pass, only listener 0 is called and listener 1 is skipped. -/
theorem notify_skips_after_reentrant_remove :
    notify_listeners [⟨0, .removeSelf⟩, ⟨1, .inert⟩] = ([⟨1, .inert⟩], [0]) :=
  rfl

/-- C10: any failing state fetch — a non-200 response or any caught
exception — makes `async_get_state` return `None` with the cache untouched;
the cache is written (and the body returned) exactly when the status is 200. -/
theorem get_state_failure_leaves_cache (co : Coordinator)
    (outcome : GetStateOutcome) (h : ∀ body, outcome ≠ .response 200 body) :
    async_get_state co outcome = (co, none, [Event.restGet "/state"]) ∧
    ∀ body, async_get_state co (.response 200 body)
      = ({ co with state := body }, some body, [Event.restGet "/state"]) := by
  refine ⟨?_, fun body => rfl⟩
  cases outcome with
  | response status body =>
      have hs : ¬ status = 200 := fun hs => h body (by rw [hs])
      simp [async_get_state, hs]
  | connectError => rfl
  | timeoutError => rfl
  | otherError => rfl

/-- Witness for C10: a timed-out fetch returns none and leaves the fresh
coordinator unchanged. -/
theorem get_state_failure_leaves_cache_witness :
    async_get_state initCoordinator .timeoutError
      = (initCoordinator, none, [Event.restGet "/state"]) :=
  (get_state_failure_leaves_cache initCoordinator .timeoutError
    (fun _ h => nomatch h)).1

/-- C9: for every nonnegative seek position in seconds, the dispatched seek
command carries `position` in integer milliseconds obtained by truncating
seconds times 1000 (truncation toward zero, which on nonnegative values is
the floor, not rounding), both in the kwargs handed to the dispatcher and in
the request body built for the `/seek` fallback; in particular `seek(12.5)`
produces the body with position 12500. -/
theorem seek_position_truncated_ms (position : Rat) (h : 0 ≤ position) :
    async_media_seek position
      = ("seek", [("position", JVal.jint ⌊position * 1000⌋)]) ∧
    rest_body (async_media_seek position).1 (async_media_seek position).2
      = some [("position", JVal.jint ⌊position * 1000⌋)] ∧
    async_media_seek (25 / 2) = ("seek", [("position", JVal.jint 12500)]) := by
  have hm : (0 : Rat) ≤ position * 1000 := by positivity
  have h1 : pyInt (position * 1000) = ⌊position * 1000⌋ := pyInt_eq_floor _ hm
  refine ⟨?_, ?_, ?_⟩
  · unfold async_media_seek
    rw [h1]
  · unfold async_media_seek
    rw [h1]
    rfl
  · unfold async_media_seek
    rw [show pyInt (25 / 2 * 1000) = 12500 by norm_num [pyInt]]

/-- Witness for C9 at position 12.5 seconds. -/
theorem seek_position_truncated_ms_witness :
    (0 : Rat) ≤ 25 / 2 ∧
    async_media_seek (25 / 2) = ("seek", [("position", JVal.jint 12500)]) :=
  ⟨by norm_num, (seek_position_truncated_ms (25 / 2) (by norm_num)).2.2⟩

/-- C8: running the read loop over any finite list of frames produces, for
each successfully decoded frame in order, a wholesale cache replacement by
that frame's content immediately followed by exactly one listener
notification — never a notification before the cache write, never zero and
never coalesced — and the final cache equals the content of the last decoded
frame (all its fields kept verbatim), so the cache read after each frame
reflects exactly that frame. -/
theorem decoded_frame_updates_cache_then_notifies (co : Coordinator)
    (frames : List (Option JObj)) :
    (listen_frames co frames).2 = expectedFrameEvents frames ∧
    (listen_frames co frames).1 = { co with state := lastDecoded co.state frames } := by
  induction frames generalizing co with
  | nil => exact ⟨rfl, rfl⟩
  | cons f rest ih =>
      cases f with
      | some d =>
          have hr := ih { co with state := d }
          constructor
          · show Event.cacheSet d :: Event.notify ::
                (listen_frames { co with state := d } rest).2
              = Event.cacheSet d :: Event.notify :: expectedFrameEvents rest
            rw [hr.1]
          · show (listen_frames { co with state := d } rest).1
              = { co with state := lastDecoded d rest }
            rw [hr.2]
      | none =>
          have hr := ih co
          exact ⟨hr.1, hr.2⟩

lemma send_rest_command_preserves_fields (co : Coordinator) (command : String)
    (kwargs : JObj) (outcome : RestOutcome) :
    (send_rest_command co command kwargs outcome).1.shouldReconnect
      = co.shouldReconnect ∧
    (send_rest_command co command kwargs outcome).1.reconnectTask
      = co.reconnectTask ∧
    (send_rest_command co command kwargs outcome).1.wsTask = co.wsTask ∧
    (send_rest_command co command kwargs outcome).1.ws = co.ws ∧
    (send_rest_command co command kwargs outcome).1.connected = co.connected ∧
    (send_rest_command co command kwargs outcome).2.2.filter
      isReconnectActivity = [] := by
  unfold send_rest_command
  cases hep : endpoint_map.lookup command with
  | none => exact ⟨rfl, rfl, rfl, rfl, rfl, rfl⟩
  | some endpoint =>
      cases outcome with
      | response status data =>
          by_cases hs : status = 200
          · rcases hst : data.lookup "state" with _ | v
            · simp [hs, hst, isReconnectActivity]
            · cases v <;> simp [hs, hst, isReconnectActivity]
          · simp [hs, isReconnectActivity]
      | connectError => simp [isReconnectActivity]
      | timeoutError => simp [isReconnectActivity]
      | otherError => simp [isReconnectActivity]

lemma send_rest_command_rest_calls (co : Coordinator) (command : String)
    (kwargs : JObj) (outcome : RestOutcome) (endpoint : String)
    (hep : endpoint_map.lookup command = some endpoint) :
    (send_rest_command co command kwargs outcome).2.2.filter isRestPost
      = [Event.restPost endpoint (rest_body command kwargs)] := by
  unfold send_rest_command
  rw [hep]
  cases outcome with
  | response status data =>
      by_cases hs : status = 200
      · rcases hst : data.lookup "state" with _ | v
        · simp [hs, hst, isRestPost]
        · cases v <;> simp [hs, hst, isRestPost]
      · simp [hs, isRestPost]
  | connectError => simp [isRestPost]
  | timeoutError => simp [isRestPost]
  | otherError => simp [isRestPost]

/-- C2: with the coordinator connected and the push handle non-null, a
successful push write makes `send` return success with the serialized
`{command, ...kwargs}` message as the only network activity — no
request-transport call; a push write that raises falls back to exactly one
request-transport POST to the command's table endpoint, with the body built
from the same arguments, and the failure does not close the push handle. -/
theorem send_push_success_and_fallback (co : Coordinator) (command : String)
    (kwargs : JObj) (rest : RestOutcome) (endpoint : String)
    (hconn : co.connected = true) (hws : co.ws = true)
    (hep : endpoint_map.lookup command = some endpoint) :
    async_send_command co command kwargs .ok rest
      = (co, true, [Event.wsSend (("command", JVal.jstr command) :: kwargs)]) ∧
    (async_send_command co command kwargs .exn rest).2.2.filter isRestPost
      = [Event.restPost endpoint (rest_body command kwargs)] ∧
    (async_send_command co command kwargs .exn rest).1.ws = true := by
  have hcond : ¬ (co.connected = false ∨ co.ws = false) := by
    simp [hconn, hws]
  refine ⟨?_, ?_, ?_⟩
  · unfold async_send_command
    rw [if_neg hcond]
  · unfold async_send_command
    rw [if_neg hcond]
    show (Event.wsSend (("command", JVal.jstr command) :: kwargs) ::
        (send_rest_command co command kwargs rest).2.2).filter isRestPost = _
    rw [List.filter_cons_of_neg (by simp [isRestPost])]
    exact send_rest_command_rest_calls co command kwargs rest endpoint hep
  · unfold async_send_command
    rw [if_neg hcond]
    show (send_rest_command co command kwargs rest).1.ws = true
    rw [(send_rest_command_preserves_fields co command kwargs rest).2.2.2.1, hws]

/-- Witness for C2: a connected coordinator with `send("play", url="U")` —
a successful write sends only the websocket message; a failing write issues
exactly one `POST /play` with a body carrying url = "U", and the push handle
stays open. -/
theorem send_push_success_and_fallback_witness :
    async_send_command connectedCo "play" [("url", JVal.jstr "U")] .ok .otherError
      = (connectedCo, true,
         [Event.wsSend [("command", JVal.jstr "play"), ("url", JVal.jstr "U")]]) ∧
    (async_send_command connectedCo "play" [("url", JVal.jstr "U")] .exn
        .otherError).2.2.filter isRestPost
      = [Event.restPost "/play"
          (some [("url", JVal.jstr "U"), ("title", JVal.jnull),
                 ("artist", JVal.jnull)])] ∧
    (async_send_command connectedCo "play" [("url", JVal.jstr "U")] .exn
        .otherError).1.ws = true :=
  send_push_success_and_fallback connectedCo "play" [("url", JVal.jstr "U")]
    .otherError "/play" rfl rfl rfl

lemma async_get_state_preserves_fields (co : Coordinator)
    (outcome : GetStateOutcome) :
    (async_get_state co outcome).1.shouldReconnect = co.shouldReconnect ∧
    (async_get_state co outcome).1.reconnectTask = co.reconnectTask ∧
    (async_get_state co outcome).1.wsTask = co.wsTask ∧
    (async_get_state co outcome).1.ws = co.ws ∧
    (async_get_state co outcome).1.connected = co.connected ∧
    (async_get_state co outcome).2.2.filter isReconnectActivity = [] := by
  cases outcome with
  | response status data =>
      by_cases hs : status = 200 <;>
        simp [async_get_state, hs, isReconnectActivity]
  | connectError => simp [async_get_state, isReconnectActivity]
  | timeoutError => simp [async_get_state, isReconnectActivity]
  | otherError => simp [async_get_state, isReconnectActivity]

lemma async_disconnect_stops (mx : Nat) (co : Coordinator) :
    stoppedB (async_disconnect mx co).1 = true ∧
    (async_disconnect mx co).2.filter isReconnectActivity = [] := by
  unfold async_disconnect listen_finally
  cases h : co.wsTask with
  | none => simp [stoppedB, h]
  | some d => cases d <;> simp [stoppedB, h, isReconnectActivity]

lemma stoppedB_iff (co : Coordinator) :
    stoppedB co = true ↔
      (co.shouldReconnect = false ∧ co.reconnectTask = none ∧
       co.wsTask = none ∧ co.ws = false ∧ co.connected = false) := by
  simp [stoppedB]

lemma step_preserves_stopped (mn mx : Nat) (co : Coordinator) (a : Action)
    (hstop : stoppedB co = true) (ha : isConnectCall a = false) :
    stoppedB (step mn mx co a).1 = true ∧
    (step mn mx co a).2.filter isReconnectActivity = [] := by
  obtain ⟨h1, h2, h3, h4, h5⟩ := (stoppedB_iff co).mp hstop
  cases a with
  | connect o f => simp [isConnectCall] at ha
  | disconnect => exact async_disconnect_stops mx co
  | timerFires o f =>
      have hres : step mn mx co (.timerFires o f) = (co, []) := by
        unfold step
        rw [h2]
      rw [hres]
      exact ⟨hstop, rfl⟩
  | wsLoopRuns frames =>
      have hres : step mn mx co (.wsLoopRuns frames) = (co, []) := by
        unfold step
        rw [h3]
      rw [hres]
      exact ⟨hstop, rfl⟩
  | send command kwargs push rest =>
      have hbr : async_send_command co command kwargs push rest
          = send_rest_command co command kwargs rest := by
        unfold async_send_command
        rw [if_pos (Or.inl h5)]
      have hf := send_rest_command_preserves_fields co command kwargs rest
      constructor
      · show stoppedB (async_send_command co command kwargs push rest).1 = true
        rw [hbr]
        simp [stoppedB, hf.1, hf.2.1, hf.2.2.1, hf.2.2.2.1, hf.2.2.2.2.1,
          h1, h2, h3, h4, h5]
      · show (async_send_command co command kwargs push rest).2.2.filter
            isReconnectActivity = []
        rw [hbr]
        exact hf.2.2.2.2.2
  | getState outcome =>
      have hf := async_get_state_preserves_fields co outcome
      constructor
      · show stoppedB (async_get_state co outcome).1 = true
        simp [stoppedB, hf.1, hf.2.1, hf.2.2.1, hf.2.2.2.1, hf.2.2.2.2.1,
          h1, h2, h3, h4, h5]
      · exact hf.2.2.2.2.2

lemma run_preserves_stopped (mn mx : Nat) (acts : List Action)
    (co : Coordinator) (hstop : stoppedB co = true)
    (h : ∀ a ∈ acts, isConnectCall a = false) :
    stoppedB (run mn mx co acts).1 = true ∧
    (run mn mx co acts).2.filter isReconnectActivity = [] := by
  induction acts generalizing co with
  | nil => exact ⟨hstop, rfl⟩
  | cons a rest ih =>
      have hs := step_preserves_stopped mn mx co a hstop
        (h a (List.mem_cons_self a rest))
      have hr := ih (step mn mx co a).1 hs.1
        (fun b hb => h b (List.mem_cons_of_mem a hb))
      refine ⟨hr.1, ?_⟩
      show ((step mn mx co a).2 ++ (run mn mx (step mn mx co a).1 rest).2).filter
          isReconnectActivity = []
      rw [List.filter_append, hs.2, hr.2]
      rfl

/-- C6: once `disconnect()` has returned, no background activity survives:
the reconnect timer and the read-loop task are cancelled, awaited and
cleared, the transport handle is closed, the status is disconnected, the
stop flag is set, and the call itself performs no reconnection activity;
moreover along any subsequent sequence of activities that does not contain a
`connect()` call, the coordinator stays in that stopped shape and the trace
contains no connect attempt and no reconnect-timer creation — a stopped
coordinator never self-resumes. -/
theorem disconnect_stops_all_background (mn mx : Nat) (co : Coordinator)
    (acts : List Action) (h : ∀ a ∈ acts, isConnectCall a = false) :
    stoppedB (async_disconnect mx co).1 = true ∧
    (async_disconnect mx co).2.filter isReconnectActivity = [] ∧
    stoppedB (run mn mx (async_disconnect mx co).1 acts).1 = true ∧
    (run mn mx (async_disconnect mx co).1 acts).2.filter
      isReconnectActivity = [] := by
  have hd := async_disconnect_stops mx co
  have hr := run_preserves_stopped mn mx acts (async_disconnect mx co).1 hd.1 h
  exact ⟨hd.1, hd.2, hr.1, hr.2⟩

/-- Witness for C6: disconnecting a connected coordinator and then letting a
timer-fire attempt, a read-loop run, a command send and a state fetch all
run produces no reconnection activity and leaves the coordinator stopped. -/
theorem disconnect_stops_all_background_witness :
    (∀ a ∈ [Action.timerFires .refused .otherError, Action.wsLoopRuns [],
        Action.send "play" [("url", JVal.jstr "U")] .ok .otherError,
        Action.getState .otherError, Action.disconnect],
      isConnectCall a = false) ∧
    stoppedB (async_disconnect 300 connectedCo).1 = true ∧
    (async_disconnect 300 connectedCo).2.filter isReconnectActivity = [] ∧
    stoppedB (run 5 300 (async_disconnect 300 connectedCo).1
      [Action.timerFires .refused .otherError, Action.wsLoopRuns [],
       Action.send "play" [("url", JVal.jstr "U")] .ok .otherError,
       Action.getState .otherError, Action.disconnect]).1 = true ∧
    (run 5 300 (async_disconnect 300 connectedCo).1
      [Action.timerFires .refused .otherError, Action.wsLoopRuns [],
       Action.send "play" [("url", JVal.jstr "U")] .ok .otherError,
       Action.getState .otherError, Action.disconnect]).2.filter
      isReconnectActivity = [] := by
  have hacts : ∀ a ∈ [Action.timerFires .refused .otherError,
      Action.wsLoopRuns [],
      Action.send "play" [("url", JVal.jstr "U")] .ok .otherError,
      Action.getState .otherError, Action.disconnect],
      isConnectCall a = false := by
    decide
  have hmain := disconnect_stops_all_background 5 300 connectedCo
    [Action.timerFires .refused .otherError, Action.wsLoopRuns [],
     Action.send "play" [("url", JVal.jstr "U")] .ok .otherError,
     Action.getState .otherError, Action.disconnect] hacts
  exact ⟨hacts, hmain.1, hmain.2.1, hmain.2.2.1, hmain.2.2.2⟩

end AMP
